import Mathlib

set_option maxRecDepth 4096

/-!
Verification of the parameter-initializer core of `burn-core`
(`src/burn-core/src/nn/initializer.rs`).

The embedding mirrors the Rust source:

* `f64` values are idealized as `F64`: finite values are exact real numbers
  (rounding is not modelled), plus the two infinities and NaN, with the
  IEEE-754 sign rules for multiplication, division and square root that the
  formulas exercise (the sign of zero is not modelled; a finite zero behaves
  as +0).
* The tensor backend is opaque: an initializer run produces a `TensorReq`,
  the single request the source makes of the backend (`fill` with a constant
  or `random` from a distribution), rather than a tensor of values.
* A Rust `panic!`/`expect` abort is modelled as `Except.error` carrying the
  exact panic message string; success is `Except.ok` carrying the request.
-/

namespace BurnCore

/-- Idealized IEEE-754 double: an exact finite real, an infinity, or NaN. -/
inductive F64 where
  | fin (x : ℝ)
  | posInf
  | negInf
  | nan

/-- IEEE-754 negation on the idealized doubles. -/
def F64.neg : F64 → F64
  | .fin x => .fin (-x)
  | .posInf => .negInf
  | .negInf => .posInf
  | .nan => .nan

open Classical in
/-- IEEE-754 multiplication on the idealized doubles: finite times finite is
exact, an infinity times a nonzero finite value follows the sign rule,
an infinity times zero is NaN, and NaN is absorbing. -/
noncomputable def F64.mul : F64 → F64 → F64
  | .nan, _ => .nan
  | .fin x, .fin y => .fin (x * y)
  | .fin x, .posInf => if 0 < x then .posInf else if x < 0 then .negInf else .nan
  | .fin x, .negInf => if 0 < x then .negInf else if x < 0 then .posInf else .nan
  | .fin _, .nan => .nan
  | .posInf, .fin y => if 0 < y then .posInf else if y < 0 then .negInf else .nan
  | .negInf, .fin y => if 0 < y then .negInf else if y < 0 then .posInf else .nan
  | .posInf, .posInf => .posInf
  | .posInf, .negInf => .negInf
  | .negInf, .posInf => .negInf
  | .negInf, .negInf => .posInf
  | .posInf, .nan => .nan
  | .negInf, .nan => .nan

open Classical in
/-- IEEE-754 division on the idealized doubles: a nonzero finite value divided
by zero is a signed infinity (the zero behaves as +0), zero divided by zero is
NaN, a finite value divided by an infinity is zero, and NaN is absorbing. -/
noncomputable def F64.div : F64 → F64 → F64
  | .nan, _ => .nan
  | .fin x, .fin y =>
      if y = 0 then (if 0 < x then .posInf else if x < 0 then .negInf else .nan)
      else .fin (x / y)
  | .fin _, .posInf => .fin 0
  | .fin _, .negInf => .fin 0
  | .fin _, .nan => .nan
  | .posInf, .fin y => if 0 ≤ y then .posInf else .negInf
  | .negInf, .fin y => if 0 ≤ y then .negInf else .posInf
  | .posInf, _ => .nan
  | .negInf, _ => .nan

open Classical in
/-- IEEE-754 square root on the idealized doubles: NaN on negative finite
values and on negative infinity. -/
noncomputable def F64.sqrt : F64 → F64
  | .fin x => if x < 0 then .nan else .fin (Real.sqrt x)
  | .posInf => .posInf
  | .negInf => .nan
  | .nan => .nan

/-- The value `libm::sqrt(3.0)` used for the uniform Kaiming and Xavier bounds. -/
noncomputable def sqrt3 : F64 := .fin (Real.sqrt 3)

/-- Distribution specification handed to the backend random capability,
mirroring `burn_tensor::Distribution`: `Uniform(low, high)` or
`Normal(mean, std)`. -/
inductive Distribution where
  | uniform (low high : F64)
  | normal (mean std : F64)

/-- The single request an initializer run makes of the opaque tensor backend:
fill a shape with a constant, or draw a shape from a distribution. -/
inductive TensorReq where
  | fill (shape : List ℕ) (value : F64)
  | random (shape : List ℕ) (dist : Distribution)

/-- Modelled from the spec: the backend capability `fill(shape, constant)`
behind `Tensor::full` (`burn_tensor` is outside this core). -/
def Tensor.full (shape : List ℕ) (value : F64) : TensorReq := .fill shape value

/-- Modelled from the spec: `Tensor::ones` requests a fill of the shape with 1
(`burn_tensor` is outside this core). -/
def Tensor.ones (shape : List ℕ) : TensorReq := .fill shape (.fin 1)

/-- Modelled from the spec: `Tensor::zeros` requests a fill of the shape with 0
(`burn_tensor` is outside this core). -/
def Tensor.zeros (shape : List ℕ) : TensorReq := .fill shape (.fin 0)

/-- Modelled from the spec: the backend capability
`random(shape, distribution_spec)` behind `Tensor::random`. -/
def Tensor.random (shape : List ℕ) (d : Distribution) : TensorReq :=
  .random shape d

/-- Panic message of `kaiming_std` when the selected fan is absent
(the Rust `expect` string, verbatim). -/
def kaimingFanMsg : String :=
  "Can\x27t use Kaiming initialization without specifying fan. Use init_with method."

/-- Panic message of `xavier_std` when `fan_in` is absent
(the Rust `expect` string, verbatim, after the line continuation). -/
def xavierFanInMsg : String :=
  "Can\x27t use Xavier initialization without specifying fan in. Use init_with method and provide fan_in."

/-- Panic message of `xavier_std` when `fan_out` is absent
(the Rust `expect` string, verbatim, after the line continuation). -/
def xavierFanOutMsg : String :=
  "Can\x27t use Xavier initialization without specifying fan out. Use init_with method and provide fan_out."

/-- The `Initializer` enum: one constructor per initialization strategy,
holding exactly the scalar fields of the Rust variant. -/
inductive Initializer where
  | constant (value : F64)
  | ones
  | zeros
  | uniform (min max : F64)
  | normal (mean std : F64)
  | kaimingUniform (gain : F64) (fan_out_only : Bool)
  | kaimingNormal (gain : F64) (fan_out_only : Bool)
  | xavierUniform (gain : F64)
  | xavierNormal (gain : F64)

/-- The method `Initializer::kaiming_std`: select `fan_out` when
`fan_out_only` else `fan_in`, abort with the panic message when the selected
fan is absent, else return `1.0 / sqrt(fan as f64)`. -/
noncomputable def Initializer.kaiming_std (fan_out_only : Bool)
    (fan_in fan_out : Option ℕ) : Except String F64 :=
  match (if fan_out_only then fan_out else fan_in) with
  | none => .error kaimingFanMsg
  | some fan => .ok (F64.div (.fin 1) (F64.sqrt (.fin (fan : ℝ))))

/-- The method `Initializer::xavier_std`: abort when `fan_in` is absent, then
when `fan_out` is absent, else return `sqrt(2.0 / (fan_in + fan_out) as f64)`. -/
noncomputable def Initializer.xavier_std
    (fan_in fan_out : Option ℕ) : Except String F64 :=
  match fan_in with
  | none => .error xavierFanInMsg
  | some fi =>
    match fan_out with
    | none => .error xavierFanOutMsg
    | some fo => .ok (F64.sqrt (F64.div (.fin 2) (.fin ((fi + fo : ℕ) : ℝ))))

/-- The free function `uniform_draw`: request a draw from `Uniform(low, high)`. -/
def uniform_draw (shape : List ℕ) (low high : F64) : TensorReq :=
  Tensor.random shape (.uniform low high)

/-- The free function `normal_draw`: request a draw from `Normal(mean, std)`. -/
def normal_draw (shape : List ℕ) (mean std : F64) : TensorReq :=
  Tensor.random shape (.normal mean std)

/-- The method `Initializer::init_with`: dispatch on the variant, computing
the fan-based statistic where needed, and produce the single backend request.
A panic escaping `kaiming_std` / `xavier_std` propagates as the error. -/
noncomputable def Initializer.init_with (self : Initializer) (shape : List ℕ)
    (fan_in fan_out : Option ℕ) : Except String TensorReq :=
  match self with
  | .constant value => .ok (Tensor.full shape value)
  | .ones => .ok (Tensor.ones shape)
  | .zeros => .ok (Tensor.zeros shape)
  | .uniform min max => .ok (uniform_draw shape min max)
  | .normal mean std => .ok (normal_draw shape mean std)
  | .kaimingUniform gain fan_out_only =>
      (Initializer.kaiming_std fan_out_only fan_in fan_out).map fun std =>
        let a := (sqrt3.mul gain).mul std
        uniform_draw shape a.neg a
  | .kaimingNormal gain fan_out_only =>
      (Initializer.kaiming_std fan_out_only fan_in fan_out).map fun std =>
        normal_draw shape (.fin 0) (gain.mul std)
  | .xavierUniform gain =>
      (Initializer.xavier_std fan_in fan_out).map fun std =>
        let a := (sqrt3.mul gain).mul std
        uniform_draw shape a.neg a
  | .xavierNormal gain =>
      (Initializer.xavier_std fan_in fan_out).map fun std =>
        normal_draw shape (.fin 0) (gain.mul std)

/-- The method `Initializer::init`: delegate to `init_with` with no fans. -/
noncomputable def Initializer.init (self : Initializer) (shape : List ℕ) :
    Except String TensorReq :=
  self.init_with shape none none

/-- Finite times finite multiplication is exact. -/
theorem F64.mul_fin (x y : ℝ) : F64.mul (.fin x) (.fin y) = .fin (x * y) := rfl

/-- A positive finite value times positive infinity is positive infinity. -/
theorem F64.fin_mul_posInf {x : ℝ} (hx : 0 < x) :
    F64.mul (.fin x) .posInf = .posInf := by
  simp [F64.mul, hx]

/-- A negative finite value times positive infinity is negative infinity. -/
theorem F64.fin_neg_mul_posInf {x : ℝ} (hx : x < 0) :
    F64.mul (.fin x) .posInf = .negInf := by
  simp [F64.mul, hx, not_lt.mpr hx.le]

/-- Square root of a nonnegative finite cast of a natural number. -/
theorem F64.sqrt_fin_nat (n : ℕ) :
    F64.sqrt (.fin (n : ℝ)) = .fin (Real.sqrt (n : ℝ)) := by
  have h : (0 : ℝ) ≤ (n : ℝ) := Nat.cast_nonneg n
  simp [F64.sqrt, not_lt.mpr h]

/-- Division by a nonzero finite value is exact. -/
theorem F64.div_fin {x y : ℝ} (hy : y ≠ 0) :
    F64.div (.fin x) (.fin y) = .fin (x / y) := by
  simp [F64.div, hy]

/-- Division of a positive finite value by finite zero is positive infinity. -/
theorem F64.div_fin_zero {x : ℝ} (hx : 0 < x) :
    F64.div (.fin x) (.fin 0) = .posInf := by
  simp [F64.div, hx]

/-- Case lemma: `kaiming_std` aborts when the selected fan is absent. -/
theorem kaiming_std_none (b : Bool) (fan_in fan_out : Option ℕ)
    (hsel : (if b then fan_out else fan_in) = none) :
    Initializer.kaiming_std b fan_in fan_out = .error kaimingFanMsg := by
  unfold Initializer.kaiming_std
  rw [hsel]

/-- Case lemma: `kaiming_std` on a present selected fan. -/
theorem kaiming_std_some (b : Bool) (fan_in fan_out : Option ℕ) (n : ℕ)
    (hsel : (if b then fan_out else fan_in) = some n) :
    Initializer.kaiming_std b fan_in fan_out
      = .ok (F64.div (.fin 1) (F64.sqrt (.fin (n : ℝ)))) := by
  unfold Initializer.kaiming_std
  rw [hsel]

/-- Case lemma: `xavier_std` aborts on an absent `fan_in`, whatever `fan_out`. -/
theorem xavier_std_none_left (fan_out : Option ℕ) :
    Initializer.xavier_std none fan_out = .error xavierFanInMsg := rfl

/-- Case lemma: `xavier_std` aborts on an absent `fan_out` once `fan_in` is
present. -/
theorem xavier_std_none_right (fi : ℕ) :
    Initializer.xavier_std (some fi) none = .error xavierFanOutMsg := rfl

/-- Case lemma: `xavier_std` on both fans present. -/
theorem xavier_std_some_some (fi fo : ℕ) :
    Initializer.xavier_std (some fi) (some fo)
      = .ok (F64.sqrt (F64.div (.fin 2) (.fin ((fi + fo : ℕ) : ℝ)))) := rfl

/-- With the selected fan present and positive, `kaiming_std` succeeds with
the exact value `1 / sqrt fan`. -/
theorem kaiming_std_ok (fan_out_only : Bool) (fan_in fan_out : Option ℕ)
    (n : ℕ) (hsel : (if fan_out_only then fan_out else fan_in) = some n)
    (hn : 0 < n) :
    Initializer.kaiming_std fan_out_only fan_in fan_out
      = .ok (.fin (1 / Real.sqrt (n : ℝ))) := by
  have hs : Real.sqrt (n : ℝ) ≠ 0 :=
    Real.sqrt_ne_zero'.mpr (by exact_mod_cast hn)
  unfold Initializer.kaiming_std
  rw [hsel]
  show Except.ok (F64.div (.fin 1) (F64.sqrt (.fin (n : ℝ))))
    = Except.ok (F64.fin (1 / Real.sqrt (n : ℝ)))
  rw [F64.sqrt_fin_nat, F64.div_fin hs]

/-- With both fans present and of positive sum, `xavier_std` succeeds with
the exact value `sqrt (2 / (fan_in + fan_out))`. -/
theorem xavier_std_ok (fi fo : ℕ) (hsum : 0 < fi + fo) :
    Initializer.xavier_std (some fi) (some fo)
      = .ok (.fin (Real.sqrt (2 / ((fi : ℝ) + fo)))) := by
  have hne : (((fi + fo : ℕ) : ℝ)) ≠ 0 := Nat.cast_ne_zero.mpr hsum.ne'
  have hnn : ¬ ((2 : ℝ) / ((fi + fo : ℕ) : ℝ) < 0) :=
    not_lt.mpr (by positivity)
  unfold Initializer.xavier_std
  show Except.ok (F64.sqrt (F64.div (.fin 2) (.fin ((fi + fo : ℕ) : ℝ))))
    = Except.ok (F64.fin (Real.sqrt (2 / ((fi : ℝ) + fo))))
  rw [F64.div_fin hne]
  simp only [F64.sqrt, if_neg hnn]
  push_cast
  rfl

/-- Unfolding of `init_with` on the `Constant` variant. -/
theorem init_with_constant (v : F64) (shape : List ℕ)
    (fan_in fan_out : Option ℕ) :
    (Initializer.constant v).init_with shape fan_in fan_out
      = .ok (Tensor.full shape v) := rfl

/-- Unfolding of `init_with` on the `Ones` variant. -/
theorem init_with_ones (shape : List ℕ) (fan_in fan_out : Option ℕ) :
    Initializer.ones.init_with shape fan_in fan_out
      = .ok (Tensor.ones shape) := rfl

/-- Unfolding of `init_with` on the `Zeros` variant. -/
theorem init_with_zeros (shape : List ℕ) (fan_in fan_out : Option ℕ) :
    Initializer.zeros.init_with shape fan_in fan_out
      = .ok (Tensor.zeros shape) := rfl

/-- Unfolding of `init_with` on the `Uniform` variant. -/
theorem init_with_uniform (lo hi : F64) (shape : List ℕ)
    (fan_in fan_out : Option ℕ) :
    (Initializer.uniform lo hi).init_with shape fan_in fan_out
      = .ok (uniform_draw shape lo hi) := rfl

/-- Unfolding of `init_with` on the `Normal` variant. -/
theorem init_with_normal (m s : F64) (shape : List ℕ)
    (fan_in fan_out : Option ℕ) :
    (Initializer.normal m s).init_with shape fan_in fan_out
      = .ok (normal_draw shape m s) := rfl

/-- Unfolding of `init_with` on the `KaimingUniform` variant. -/
theorem init_with_kaimingUniform (g : F64) (b : Bool) (shape : List ℕ)
    (fan_in fan_out : Option ℕ) :
    (Initializer.kaimingUniform g b).init_with shape fan_in fan_out
      = (Initializer.kaiming_std b fan_in fan_out).map fun std =>
          let a := (sqrt3.mul g).mul std
          uniform_draw shape a.neg a := rfl

/-- Unfolding of `init_with` on the `KaimingNormal` variant. -/
theorem init_with_kaimingNormal (g : F64) (b : Bool) (shape : List ℕ)
    (fan_in fan_out : Option ℕ) :
    (Initializer.kaimingNormal g b).init_with shape fan_in fan_out
      = (Initializer.kaiming_std b fan_in fan_out).map fun std =>
          normal_draw shape (.fin 0) (g.mul std) := rfl

/-- Unfolding of `init_with` on the `XavierUniform` variant. -/
theorem init_with_xavierUniform (g : F64) (shape : List ℕ)
    (fan_in fan_out : Option ℕ) :
    (Initializer.xavierUniform g).init_with shape fan_in fan_out
      = (Initializer.xavier_std fan_in fan_out).map fun std =>
          let a := (sqrt3.mul g).mul std
          uniform_draw shape a.neg a := rfl

/-- Unfolding of `init_with` on the `XavierNormal` variant. -/
theorem init_with_xavierNormal (g : F64) (shape : List ℕ)
    (fan_in fan_out : Option ℕ) :
    (Initializer.xavierNormal g).init_with shape fan_in fan_out
      = (Initializer.xavier_std fan_in fan_out).map fun std =>
          normal_draw shape (.fin 0) (g.mul std) := rfl

/-- Evaluation of `init_with` on `KaimingUniform` with a finite gain and a
present, positive selected fan. -/
theorem kaimingUniform_eq (shape : List ℕ) (g : ℝ) (b : Bool)
    (fan_in fan_out : Option ℕ) (n : ℕ)
    (hsel : (if b then fan_out else fan_in) = some n) (hn : 0 < n) :
    (Initializer.kaimingUniform (.fin g) b).init_with shape fan_in fan_out
      = .ok (.random shape (.uniform
          (.fin (-(Real.sqrt 3 * g * (1 / Real.sqrt (n : ℝ)))))
          (.fin (Real.sqrt 3 * g * (1 / Real.sqrt (n : ℝ)))))) := by
  rw [init_with_kaimingUniform, kaiming_std_ok b fan_in fan_out n hsel hn]
  simp only [Except.map, sqrt3, F64.mul_fin, F64.neg, uniform_draw,
    Tensor.random]

/-- Evaluation of `init_with` on `KaimingNormal` with a finite gain and a
present, positive selected fan. -/
theorem kaimingNormal_eq (shape : List ℕ) (g : ℝ) (b : Bool)
    (fan_in fan_out : Option ℕ) (n : ℕ)
    (hsel : (if b then fan_out else fan_in) = some n) (hn : 0 < n) :
    (Initializer.kaimingNormal (.fin g) b).init_with shape fan_in fan_out
      = .ok (.random shape (.normal (.fin 0)
          (.fin (g * (1 / Real.sqrt (n : ℝ)))))) := by
  rw [init_with_kaimingNormal, kaiming_std_ok b fan_in fan_out n hsel hn]
  simp only [Except.map, F64.mul_fin, normal_draw, Tensor.random]

/-- Evaluation of `init_with` on `XavierUniform` with a finite gain and both
fans present with positive sum. -/
theorem xavierUniform_eq (shape : List ℕ) (g : ℝ) (fi fo : ℕ)
    (hsum : 0 < fi + fo) :
    (Initializer.xavierUniform (.fin g)).init_with shape (some fi) (some fo)
      = .ok (.random shape (.uniform
          (.fin (-(Real.sqrt 3 * g * Real.sqrt (2 / ((fi : ℝ) + fo)))))
          (.fin (Real.sqrt 3 * g * Real.sqrt (2 / ((fi : ℝ) + fo)))))) := by
  rw [init_with_xavierUniform, xavier_std_ok fi fo hsum]
  simp only [Except.map, sqrt3, F64.mul_fin, F64.neg, uniform_draw,
    Tensor.random]

/-- Evaluation of `init_with` on `XavierNormal` with a finite gain and both
fans present with positive sum. -/
theorem xavierNormal_eq (shape : List ℕ) (g : ℝ) (fi fo : ℕ)
    (hsum : 0 < fi + fo) :
    (Initializer.xavierNormal (.fin g)).init_with shape (some fi) (some fo)
      = .ok (.random shape (.normal (.fin 0)
          (.fin (g * Real.sqrt (2 / ((fi : ℝ) + fo)))))) := by
  rw [init_with_xavierNormal, xavier_std_ok fi fo hsum]
  simp only [Except.map, F64.mul_fin, normal_draw, Tensor.random]

/-- With a selected fan of 0, `kaiming_std` does not abort: it returns the
IEEE result of `1.0 / sqrt(0.0)`, positive infinity. -/
theorem kaiming_std_zero (b : Bool) (fan_in fan_out : Option ℕ)
    (hsel : (if b then fan_out else fan_in) = some 0) :
    Initializer.kaiming_std b fan_in fan_out = .ok .posInf := by
  rw [kaiming_std_some b fan_in fan_out 0 hsel, F64.sqrt_fin_nat]
  simp only [Nat.cast_zero, Real.sqrt_zero]
  rw [F64.div_fin_zero one_pos]

/-- With both fans 0, `xavier_std` does not abort: it returns the IEEE result
of `sqrt(2.0 / 0.0)`, positive infinity. -/
theorem xavier_std_zero :
    Initializer.xavier_std (some 0) (some 0) = .ok .posInf := by
  rw [xavier_std_some_some 0 0]
  simp only [Nat.add_zero, Nat.cast_zero]
  rw [F64.div_fin_zero two_pos]
  rfl

/-- Every error `init_with` can produce carries one of the three panic
messages of `kaiming_std` / `xavier_std`. -/
theorem init_with_error_msg_cases (i : Initializer) (shape : List ℕ)
    (fan_in fan_out : Option ℕ) (e : String)
    (he : i.init_with shape fan_in fan_out = .error e) :
    e = kaimingFanMsg ∨ e = xavierFanInMsg ∨ e = xavierFanOutMsg := by
  cases i with
  | constant v => simp [init_with_constant] at he
  | ones => simp [init_with_ones] at he
  | zeros => simp [init_with_zeros] at he
  | uniform lo hi => simp [init_with_uniform] at he
  | normal m s => simp [init_with_normal] at he
  | kaimingUniform g b =>
    rw [init_with_kaimingUniform] at he
    cases hsel : (if b then fan_out else fan_in) with
    | none =>
      rw [kaiming_std_none b fan_in fan_out hsel] at he
      simp [Except.map] at he
      exact .inl he.symm
    | some n =>
      rw [kaiming_std_some b fan_in fan_out n hsel] at he
      simp [Except.map] at he
  | kaimingNormal g b =>
    rw [init_with_kaimingNormal] at he
    cases hsel : (if b then fan_out else fan_in) with
    | none =>
      rw [kaiming_std_none b fan_in fan_out hsel] at he
      simp [Except.map] at he
      exact .inl he.symm
    | some n =>
      rw [kaiming_std_some b fan_in fan_out n hsel] at he
      simp [Except.map] at he
  | xavierUniform g =>
    rw [init_with_xavierUniform] at he
    cases fan_in with
    | none =>
      rw [xavier_std_none_left] at he
      simp [Except.map] at he
      exact .inr (.inl he.symm)
    | some fi =>
      cases fan_out with
      | none =>
        rw [xavier_std_none_right] at he
        simp [Except.map] at he
        exact .inr (.inr he.symm)
      | some fo =>
        rw [xavier_std_some_some] at he
        simp [Except.map] at he
  | xavierNormal g =>
    rw [init_with_xavierNormal] at he
    cases fan_in with
    | none =>
      rw [xavier_std_none_left] at he
      simp [Except.map] at he
      exact .inr (.inl he.symm)
    | some fi =>
      cases fan_out with
      | none =>
        rw [xavier_std_none_right] at he
        simp [Except.map] at he
        exact .inr (.inr he.symm)
      | some fo =>
        rw [xavier_std_some_some] at he
        simp [Except.map] at he

/-- C1: for every shape, gain and fan_out_only flag, `init_with` on
`KaimingUniform` selects `fan = fan_out` if `fan_out_only` else `fan_in`, and
when the selected fan is present (a positive integer, per the input contract)
it requests a `Uniform(-a, a)` draw with
`a = sqrt 3 * gain * (1 / sqrt fan)`. -/
theorem kaimingUniform_requests_uniform_bound (shape : List ℕ) (g : ℝ)
    (fan_out_only : Bool) (fan_in fan_out : Option ℕ) (n : ℕ)
    (hsel : (if fan_out_only then fan_out else fan_in) = some n)
    (hn : 0 < n) :
    (Initializer.kaimingUniform (.fin g) fan_out_only).init_with
        shape fan_in fan_out
      = .ok (.random shape (.uniform
          (.fin (-(Real.sqrt 3 * g * (1 / Real.sqrt (n : ℝ)))))
          (.fin (Real.sqrt 3 * g * (1 / Real.sqrt (n : ℝ)))))) :=
  kaimingUniform_eq shape g fan_out_only fan_in fan_out n hsel hn

/-- Witness for C1 at gain 2, `fan_out_only = false`, `fan_in = 5`. -/
theorem kaimingUniform_requests_uniform_bound_witness :
    (Initializer.kaimingUniform (.fin 2) false).init_with [6, 5] (some 5) none
      = .ok (.random [6, 5] (.uniform
          (.fin (-(Real.sqrt 3 * 2 * (1 / Real.sqrt ((5 : ℕ) : ℝ)))))
          (.fin (Real.sqrt 3 * 2 * (1 / Real.sqrt ((5 : ℕ) : ℝ)))))) :=
  kaimingUniform_requests_uniform_bound [6, 5] 2 false (some 5) none 5 rfl
    (by decide)

/-- C2: for every shape and gain, `init_with` on `XavierUniform` with both
fans present (of positive sum, per the input contract) requests a
`Uniform(-a, a)` draw with `a = sqrt 3 * gain * sqrt (2 / (fan_in + fan_out))`. -/
theorem xavierUniform_requests_uniform_bound (shape : List ℕ) (g : ℝ)
    (fi fo : ℕ) (hsum : 0 < fi + fo) :
    (Initializer.xavierUniform (.fin g)).init_with shape (some fi) (some fo)
      = .ok (.random shape (.uniform
          (.fin (-(Real.sqrt 3 * g * Real.sqrt (2 / ((fi : ℝ) + fo)))))
          (.fin (Real.sqrt 3 * g * Real.sqrt (2 / ((fi : ℝ) + fo)))))) :=
  xavierUniform_eq shape g fi fo hsum

/-- Witness for C2 at gain 2, `fan_in = 5`, `fan_out = 6`. -/
theorem xavierUniform_requests_uniform_bound_witness :
    (Initializer.xavierUniform (.fin 2)).init_with [6, 5] (some 5) (some 6)
      = .ok (.random [6, 5] (.uniform
          (.fin (-(Real.sqrt 3 * 2 * Real.sqrt (2 / (((5 : ℕ) : ℝ) + (6 : ℕ))))))
          (.fin (Real.sqrt 3 * 2 * Real.sqrt (2 / (((5 : ℕ) : ℝ) + (6 : ℕ))))))) :=
  xavierUniform_requests_uniform_bound [6, 5] 2 5 6 (by decide)

/-- C3: `init_with` fails (the panic of the source, modelled as the error
outcome) if and only if the variant is fan-dependent and its required fan is
absent: the Kaiming variants require the fan selected by `fan_out_only` (so
with `fan_out_only = true` and only `fan_out` supplied the call succeeds), the
Xavier variants require both fans, and the non-fan variants never fail. -/
theorem init_with_error_iff (i : Initializer) (shape : List ℕ)
    (fan_in fan_out : Option ℕ) :
    (∃ e, i.init_with shape fan_in fan_out = .error e) ↔
      (match i with
        | .kaimingUniform _ b => (if b then fan_out else fan_in) = none
        | .kaimingNormal _ b => (if b then fan_out else fan_in) = none
        | .xavierUniform _ => fan_in = none ∨ fan_out = none
        | .xavierNormal _ => fan_in = none ∨ fan_out = none
        | _ => False) := by
  cases i with
  | constant v => simp [init_with_constant]
  | ones => simp [init_with_ones]
  | zeros => simp [init_with_zeros]
  | uniform lo hi => simp [init_with_uniform]
  | normal m s => simp [init_with_normal]
  | kaimingUniform g b =>
    rw [init_with_kaimingUniform]
    cases hsel : (if b then fan_out else fan_in) with
    | none => simp [kaiming_std_none b fan_in fan_out hsel, Except.map, hsel]
    | some n => simp [kaiming_std_some b fan_in fan_out n hsel, Except.map, hsel]
  | kaimingNormal g b =>
    rw [init_with_kaimingNormal]
    cases hsel : (if b then fan_out else fan_in) with
    | none => simp [kaiming_std_none b fan_in fan_out hsel, Except.map, hsel]
    | some n => simp [kaiming_std_some b fan_in fan_out n hsel, Except.map, hsel]
  | xavierUniform g =>
    rw [init_with_xavierUniform]
    cases fan_in with
    | none => simp [xavier_std_none_left, Except.map]
    | some fi =>
      cases fan_out with
      | none => simp [xavier_std_none_right, Except.map]
      | some fo => simp [xavier_std_some_some, Except.map]
  | xavierNormal g =>
    rw [init_with_xavierNormal]
    cases fan_in with
    | none => simp [xavier_std_none_left, Except.map]
    | some fi =>
      cases fan_out with
      | none => simp [xavier_std_none_right, Except.map]
      | some fo => simp [xavier_std_some_some, Except.map]

/-- C4 is false as stated: with `fan_out_only = true` and `fan_out` absent the
required fan is `fan_out`, yet the raised Kaiming message names neither
`fan_out` nor `fan_in` (in either spelling) — it only says "fan"
generically. -/
theorem kaiming_msg_omits_required_fan_name :
    (Initializer.kaimingUniform (.fin 1) true).init_with [1] (some 5) none
        = .error kaimingFanMsg
    ∧ ¬ ("fan_out".toList <:+: kaimingFanMsg.toList)
    ∧ ¬ ("fan out".toList <:+: kaimingFanMsg.toList)
    ∧ ¬ ("fan_in".toList <:+: kaimingFanMsg.toList)
    ∧ ¬ ("fan in".toList <:+: kaimingFanMsg.toList) :=
  ⟨rfl, by decide, by decide, by decide, by decide⟩

/-- C4 (amended): whenever a missing-fan failure is raised, the message
suggests the fan-aware entry point (`init_with` occurs in it) and mentions a
fan; the two Xavier messages additionally name which fan was required
(`fan_in` resp. `fan_out`), while the single Kaiming message does not name
which fan was required — it only names "fan" generically. -/
theorem error_message_content (i : Initializer) (shape : List ℕ)
    (fan_in fan_out : Option ℕ) (e : String)
    (he : i.init_with shape fan_in fan_out = .error e) :
    ("init_with".toList <:+: e.toList) ∧ ("fan".toList <:+: e.toList)
    ∧ ((e = kaimingFanMsg
          ∧ ¬ ("fan_in".toList <:+: e.toList)
          ∧ ¬ ("fan_out".toList <:+: e.toList)
          ∧ ¬ ("fan in".toList <:+: e.toList)
          ∧ ¬ ("fan out".toList <:+: e.toList))
      ∨ (e = xavierFanInMsg ∧ ("fan_in".toList <:+: e.toList)
          ∧ ("fan in".toList <:+: e.toList))
      ∨ (e = xavierFanOutMsg ∧ ("fan_out".toList <:+: e.toList)
          ∧ ("fan out".toList <:+: e.toList))) := by
  rcases init_with_error_msg_cases i shape fan_in fan_out e he
    with h | h | h <;> subst h
  · exact ⟨by decide, by decide,
      .inl ⟨rfl, by decide, by decide, by decide, by decide⟩⟩
  · exact ⟨by decide, by decide, .inr (.inl ⟨rfl, by decide, by decide⟩)⟩
  · exact ⟨by decide, by decide, .inr (.inr ⟨rfl, by decide, by decide⟩)⟩

/-- Witness for the amended C4 at `XavierUniform` with both fans absent. -/
theorem error_message_content_witness :
    ("init_with".toList <:+: xavierFanInMsg.toList)
    ∧ ("fan".toList <:+: xavierFanInMsg.toList)
    ∧ ((xavierFanInMsg = kaimingFanMsg
          ∧ ¬ ("fan_in".toList <:+: xavierFanInMsg.toList)
          ∧ ¬ ("fan_out".toList <:+: xavierFanInMsg.toList)
          ∧ ¬ ("fan in".toList <:+: xavierFanInMsg.toList)
          ∧ ¬ ("fan out".toList <:+: xavierFanInMsg.toList))
      ∨ (xavierFanInMsg = xavierFanInMsg
          ∧ ("fan_in".toList <:+: xavierFanInMsg.toList)
          ∧ ("fan in".toList <:+: xavierFanInMsg.toList))
      ∨ (xavierFanInMsg = xavierFanOutMsg
          ∧ ("fan_out".toList <:+: xavierFanInMsg.toList)
          ∧ ("fan out".toList <:+: xavierFanInMsg.toList))) :=
  error_message_content (.xavierUniform (.fin 1)) [1] none none
    xavierFanInMsg rfl

/-- C5: `init_with` on `KaimingNormal` (selected fan present and positive)
requests a `Normal(0, gain * (1 / sqrt fan))` draw, and on `XavierNormal`
(both fans present, positive sum) a
`Normal(0, gain * sqrt (2 / (fan_in + fan_out)))` draw; both means are
exactly 0. -/
theorem normal_variants_request_zero_mean (shape : List ℕ) (g : ℝ)
    (fan_out_only : Bool) (fan_in fan_out : Option ℕ) (n fi fo : ℕ)
    (hsel : (if fan_out_only then fan_out else fan_in) = some n) (hn : 0 < n)
    (hsum : 0 < fi + fo) :
    (Initializer.kaimingNormal (.fin g) fan_out_only).init_with
        shape fan_in fan_out
      = .ok (.random shape (.normal (.fin 0)
          (.fin (g * (1 / Real.sqrt (n : ℝ))))))
    ∧ (Initializer.xavierNormal (.fin g)).init_with shape (some fi) (some fo)
      = .ok (.random shape (.normal (.fin 0)
          (.fin (g * Real.sqrt (2 / ((fi : ℝ) + fo)))))) :=
  ⟨kaimingNormal_eq shape g fan_out_only fan_in fan_out n hsel hn,
    xavierNormal_eq shape g fi fo hsum⟩

/-- Witness for C5 at gain 2, `fan_out_only = false` with only `fan_in = 5`
supplied for the Kaiming half (the repository's own test call pattern), and
`fan_in = 5`, `fan_out = 6` for the Xavier half. -/
theorem normal_variants_request_zero_mean_witness :
    (Initializer.kaimingNormal (.fin 2) false).init_with [6, 5] (some 5) none
      = .ok (.random [6, 5] (.normal (.fin 0)
          (.fin (2 * (1 / Real.sqrt ((5 : ℕ) : ℝ))))))
    ∧ (Initializer.xavierNormal (.fin 2)).init_with [6, 5] (some 5) (some 6)
      = .ok (.random [6, 5] (.normal (.fin 0)
          (.fin (2 * Real.sqrt (2 / (((5 : ℕ) : ℝ) + (6 : ℕ))))))) :=
  normal_variants_request_zero_mean [6, 5] 2 false (some 5) none 5 5 6
    rfl (by decide) (by decide)

/-- C6: for every variant and shape, `init shape` is the same call as
`init_with shape none none` — the same result and the same failure
behaviour. -/
theorem init_eq_init_with_no_fans (i : Initializer) (shape : List ℕ) :
    i.init shape = i.init_with shape none none := rfl

/-- C7: a supplied fan of 0 is not guarded: on a Kaiming variant whose
selected fan (under either `fan_out_only` flag) is 0, or a Xavier variant
with `fan_in + fan_out = 0`, `init_with` raises no error; the division by
zero yields infinity, which is propagated into the requested distribution
parameters rather than trapped — for any nonzero finite gain, with the sign
of the propagated infinity following the sign of the gain. -/
theorem zero_fan_unguarded_propagates_infinity (shape : List ℕ) (g : ℝ)
    (fan_out_only : Bool) (fan_in fan_out : Option ℕ)
    (hsel : (if fan_out_only then fan_out else fan_in) = some 0)
    (hg : g ≠ 0) :
    (Initializer.kaimingUniform (.fin g) fan_out_only).init_with
        shape fan_in fan_out
      = .ok (.random shape (.uniform
          (if 0 < g then F64.negInf else F64.posInf)
          (if 0 < g then F64.posInf else F64.negInf)))
    ∧ (Initializer.kaimingNormal (.fin g) fan_out_only).init_with
        shape fan_in fan_out
      = .ok (.random shape (.normal (.fin 0)
          (if 0 < g then F64.posInf else F64.negInf)))
    ∧ (Initializer.xavierUniform (.fin g)).init_with shape (some 0) (some 0)
      = .ok (.random shape (.uniform
          (if 0 < g then F64.negInf else F64.posInf)
          (if 0 < g then F64.posInf else F64.negInf)))
    ∧ (Initializer.xavierNormal (.fin g)).init_with shape (some 0) (some 0)
      = .ok (.random shape (.normal (.fin 0)
          (if 0 < g then F64.posInf else F64.negInf))) := by
  have hk : Initializer.kaiming_std fan_out_only fan_in fan_out
      = .ok .posInf := kaiming_std_zero fan_out_only fan_in fan_out hsel
  have h3 : (0 : ℝ) < Real.sqrt 3 := Real.sqrt_pos.mpr (by norm_num)
  rcases hg.lt_or_lt with hneg | hpos
  · have h3g : Real.sqrt 3 * g < 0 := mul_neg_of_pos_of_neg h3 hneg
    have hng : ¬ (0 < g) := not_lt.mpr hneg.le
    refine ⟨?_, ?_, ?_, ?_⟩
    · rw [init_with_kaimingUniform, hk]
      simp only [Except.map, sqrt3, F64.mul_fin, F64.fin_neg_mul_posInf h3g,
        F64.neg, uniform_draw, Tensor.random, if_neg hng]
    · rw [init_with_kaimingNormal, hk]
      simp only [Except.map, F64.fin_neg_mul_posInf hneg, normal_draw,
        Tensor.random, if_neg hng]
    · rw [init_with_xavierUniform, xavier_std_zero]
      simp only [Except.map, sqrt3, F64.mul_fin, F64.fin_neg_mul_posInf h3g,
        F64.neg, uniform_draw, Tensor.random, if_neg hng]
    · rw [init_with_xavierNormal, xavier_std_zero]
      simp only [Except.map, F64.fin_neg_mul_posInf hneg, normal_draw,
        Tensor.random, if_neg hng]
  · have h3g : (0 : ℝ) < Real.sqrt 3 * g := mul_pos h3 hpos
    refine ⟨?_, ?_, ?_, ?_⟩
    · rw [init_with_kaimingUniform, hk]
      simp only [Except.map, sqrt3, F64.mul_fin, F64.fin_mul_posInf h3g,
        F64.neg, uniform_draw, Tensor.random, if_pos hpos]
    · rw [init_with_kaimingNormal, hk]
      simp only [Except.map, F64.fin_mul_posInf hpos, normal_draw,
        Tensor.random, if_pos hpos]
    · rw [init_with_xavierUniform, xavier_std_zero]
      simp only [Except.map, sqrt3, F64.mul_fin, F64.fin_mul_posInf h3g,
        F64.neg, uniform_draw, Tensor.random, if_pos hpos]
    · rw [init_with_xavierNormal, xavier_std_zero]
      simp only [Except.map, F64.fin_mul_posInf hpos, normal_draw,
        Tensor.random, if_pos hpos]

/-- Witness for C7 at gain -1, `fan_out_only = true` with only
`fan_out = 0` supplied, and shape `[1]`. -/
theorem zero_fan_unguarded_propagates_infinity_witness :
    (Initializer.kaimingUniform (.fin (-1)) true).init_with [1] none (some 0)
        = .ok (.random [1] (.uniform .posInf .negInf))
    ∧ (Initializer.kaimingNormal (.fin (-1)) true).init_with [1] none (some 0)
        = .ok (.random [1] (.normal (.fin 0) .negInf))
    ∧ (Initializer.xavierUniform (.fin (-1))).init_with [1] (some 0) (some 0)
        = .ok (.random [1] (.uniform .posInf .negInf))
    ∧ (Initializer.xavierNormal (.fin (-1))).init_with [1] (some 0) (some 0)
        = .ok (.random [1] (.normal (.fin 0) .negInf)) := by
  have h := zero_fan_unguarded_propagates_infinity [1] (-1) true none
    (some 0) rfl (by norm_num)
  simpa [(by norm_num : ¬ ((0 : ℝ) < -1))] using h

/-- C8: for every shape and fans, `Constant{value}` requests a fill of the
shape with the value (any finite or non-finite double, including 0), `Ones` a
fill with 1 and `Zeros` a fill with 0, and none of the three requests a draw
from the random source. -/
theorem constant_ones_zeros_request_fill (shape : List ℕ) (v : F64)
    (fan_in fan_out : Option ℕ) :
    (Initializer.constant v).init_with shape fan_in fan_out
        = .ok (.fill shape v)
    ∧ Initializer.ones.init_with shape fan_in fan_out
        = .ok (.fill shape (.fin 1))
    ∧ Initializer.zeros.init_with shape fan_in fan_out
        = .ok (.fill shape (.fin 0))
    ∧ (∀ s d, (Initializer.constant v).init_with shape fan_in fan_out
        ≠ .ok (.random s d))
    ∧ (∀ s d, Initializer.ones.init_with shape fan_in fan_out
        ≠ .ok (.random s d))
    ∧ (∀ s d, Initializer.zeros.init_with shape fan_in fan_out
        ≠ .ok (.random s d)) := by
  refine ⟨rfl, rfl, rfl, ?_, ?_, ?_⟩ <;> intro s d h <;>
    simp [init_with_constant, init_with_ones, init_with_zeros, Tensor.full,
      Tensor.ones, Tensor.zeros] at h

/-- C9: for every non-fan variant (`Constant`, `Ones`, `Zeros`, `Uniform`,
`Normal`), the request produced by `init_with` is independent of the fan
arguments: two calls differing only in `fan_in` and/or `fan_out` agree. -/
theorem non_fan_variants_ignore_fans (shape : List ℕ) (v lo hi m s : F64)
    (fan_in fan_out fan_in' fan_out' : Option ℕ) :
    (Initializer.constant v).init_with shape fan_in fan_out
        = (Initializer.constant v).init_with shape fan_in' fan_out'
    ∧ Initializer.ones.init_with shape fan_in fan_out
        = Initializer.ones.init_with shape fan_in' fan_out'
    ∧ Initializer.zeros.init_with shape fan_in fan_out
        = Initializer.zeros.init_with shape fan_in' fan_out'
    ∧ (Initializer.uniform lo hi).init_with shape fan_in fan_out
        = (Initializer.uniform lo hi).init_with shape fan_in' fan_out'
    ∧ (Initializer.normal m s).init_with shape fan_in fan_out
        = (Initializer.normal m s).init_with shape fan_in' fan_out' :=
  ⟨rfl, rfl, rfl, rfl, rfl⟩

/-- C10: for `KaimingUniform` or `XavierUniform` with a negative gain and the
required fan(s) present and positive, the computed bound `a` is negative, so
`init_with` requests `Uniform(-a, a)` whose low endpoint `-a` exceeds its high
endpoint `a`; the inverted range is passed on without validation. -/
theorem negative_gain_inverted_uniform_range (shape : List ℕ) (g : ℝ)
    (fan_out_only : Bool) (fan_in fan_out : Option ℕ) (n fi fo : ℕ)
    (hg : g < 0) (hsel : (if fan_out_only then fan_out else fan_in) = some n)
    (hn : 0 < n) (hsum : 0 < fi + fo) :
    (Real.sqrt 3 * g * (1 / Real.sqrt (n : ℝ)) < 0
      ∧ (Initializer.kaimingUniform (.fin g) fan_out_only).init_with
            shape fan_in fan_out
          = .ok (.random shape (.uniform
              (.fin (-(Real.sqrt 3 * g * (1 / Real.sqrt (n : ℝ)))))
              (.fin (Real.sqrt 3 * g * (1 / Real.sqrt (n : ℝ))))))
      ∧ Real.sqrt 3 * g * (1 / Real.sqrt (n : ℝ))
          < -(Real.sqrt 3 * g * (1 / Real.sqrt (n : ℝ))))
    ∧ (Real.sqrt 3 * g * Real.sqrt (2 / ((fi : ℝ) + fo)) < 0
      ∧ (Initializer.xavierUniform (.fin g)).init_with
            shape (some fi) (some fo)
          = .ok (.random shape (.uniform
              (.fin (-(Real.sqrt 3 * g * Real.sqrt (2 / ((fi : ℝ) + fo)))))
              (.fin (Real.sqrt 3 * g * Real.sqrt (2 / ((fi : ℝ) + fo))))))
      ∧ Real.sqrt 3 * g * Real.sqrt (2 / ((fi : ℝ) + fo))
          < -(Real.sqrt 3 * g * Real.sqrt (2 / ((fi : ℝ) + fo)))) := by
  have h3 : (0 : ℝ) < Real.sqrt 3 := Real.sqrt_pos.mpr (by norm_num)
  have hns : (0 : ℝ) < Real.sqrt (n : ℝ) :=
    Real.sqrt_pos.mpr (by exact_mod_cast hn)
  have hsumR : (0 : ℝ) < (fi : ℝ) + fo := by exact_mod_cast hsum
  have ha : Real.sqrt 3 * g * (1 / Real.sqrt (n : ℝ)) < 0 :=
    mul_neg_of_neg_of_pos (mul_neg_of_pos_of_neg h3 hg) (by positivity)
  have hb : Real.sqrt 3 * g * Real.sqrt (2 / ((fi : ℝ) + fo)) < 0 :=
    mul_neg_of_neg_of_pos (mul_neg_of_pos_of_neg h3 hg)
      (Real.sqrt_pos.mpr (by positivity))
  exact ⟨⟨ha, kaimingUniform_eq shape g fan_out_only _ _ n hsel hn,
      by linarith⟩,
    ⟨hb, xavierUniform_eq shape g fi fo hsum, by linarith⟩⟩

/-- Witness for C10 at gain -1, with only the selected fan `fan_in = 2`
supplied for the Kaiming half and `fan_in = fan_out = 2` for the Xavier
half. -/
theorem negative_gain_inverted_uniform_range_witness :
    (Real.sqrt 3 * (-1) * (1 / Real.sqrt ((2 : ℕ) : ℝ)) < 0
      ∧ (Initializer.kaimingUniform (.fin (-1)) false).init_with
            [1] (some 2) none
          = .ok (.random [1] (.uniform
              (.fin (-(Real.sqrt 3 * (-1) * (1 / Real.sqrt ((2 : ℕ) : ℝ)))))
              (.fin (Real.sqrt 3 * (-1) * (1 / Real.sqrt ((2 : ℕ) : ℝ))))))
      ∧ Real.sqrt 3 * (-1) * (1 / Real.sqrt ((2 : ℕ) : ℝ))
          < -(Real.sqrt 3 * (-1) * (1 / Real.sqrt ((2 : ℕ) : ℝ))))
    ∧ (Real.sqrt 3 * (-1) * Real.sqrt (2 / (((2 : ℕ) : ℝ) + (2 : ℕ))) < 0
      ∧ (Initializer.xavierUniform (.fin (-1))).init_with [1] (some 2) (some 2)
          = .ok (.random [1] (.uniform
              (.fin (-(Real.sqrt 3 * (-1)
                * Real.sqrt (2 / (((2 : ℕ) : ℝ) + (2 : ℕ))))))
              (.fin (Real.sqrt 3 * (-1)
                * Real.sqrt (2 / (((2 : ℕ) : ℝ) + (2 : ℕ)))))))
      ∧ Real.sqrt 3 * (-1) * Real.sqrt (2 / (((2 : ℕ) : ℝ) + (2 : ℕ)))
          < -(Real.sqrt 3 * (-1)
            * Real.sqrt (2 / (((2 : ℕ) : ℝ) + (2 : ℕ))))) :=
  negative_gain_inverted_uniform_range [1] (-1) false (some 2) none 2 2 2
    (by norm_num) rfl (by decide) (by decide)

end BurnCore
